import Mathlib

/-!
Verification of the Australian Immigration Law RAG system.

The repository ships a React/TypeScript frontend (`frontend/src`), a README and
deployment scripts; the Python backend (`backend/rag/chunking.py`,
`retriever.py`, `pipeline.py`, ...) is referenced by the README and consumed by
the frontend but its source is not part of the snapshot.  Definitions for the
backend pipeline are therefore modelled from the specification (marked
`Modelled from the spec:`), while the frontend functions (`handleQuery`,
`handleFileSelect`, `formatAnswer`) and the TypeScript payload types
(`QueryRequest`, `QueryResponse`, `SystemStats`) are embedded directly from the
sources under `frontend/src`.
-/

namespace ImmigrationRag

/-! ### Chunker -/

/-- Modelled from the spec: the sliding-window loop of the backend Chunker
(§4.2; `backend/rag/chunking.py` is not in the snapshot).  A window of `cs`
tokens is emitted at the current position and the position advances by `step`
tokens per iteration while it is still inside the text, so the last window may
be shorter than `cs` but is never empty and never dropped.  A zero step (which
the caller rules out) yields no chunks so that the definition is total. -/
def slidingWindow {α : Type} (cs step : Nat) (toks : List α) : List (List α) :=
  if h : toks.isEmpty ∨ step = 0 then []
  else if h2 : toks.length ≤ step then [toks.take cs]
  else toks.take cs :: slidingWindow cs step (toks.drop step)
termination_by toks.length
decreasing_by
  simp only [List.length_drop]
  have hstep : step ≠ 0 := fun hz => h (Or.inr hz)
  omega

/-- Modelled from the spec: the Chunker entry point (§4.2).  An invalid
configuration (`overlap ≥ chunk_size`, the `InvalidChunkingConfig` failure) is
signalled as `none`; otherwise the sliding window runs with step
`cs - ov`, and an empty input yields an empty chunk sequence. -/
def chunkTokens {α : Type} (cs ov : Nat) (toks : List α) : Option (List (List α)) :=
  if cs ≤ ov then none else some (slidingWindow cs (cs - ov) toks)

/-- Modelled from the spec: removing the overlapping token spans from a chunk
sequence (§3, Chunk invariant).  The first chunk is kept whole and every later
chunk drops its first `ov` tokens — exactly the tokens it shares with its
predecessor — and the results are concatenated. -/
def deOverlap {α : Type} (ov : Nat) : List (List α) → List α
  | [] => []
  | c :: rest => c ++ (rest.map (List.drop ov)).flatten

/-! ### Stable insertion sort used by the Vector Index and the Retriever -/

/-- Inserts `a` in front of the first element `b` of `l` with `le a b = true`;
elements already in `l` keep their relative order, which makes the sort below
stable. -/
def insertBy {α : Type} (le : α → α → Bool) (a : α) : List α → List α
  | [] => [a]
  | b :: bs => if le a b then a :: b :: bs else b :: insertBy le a bs

/-- Stable insertion sort by the Boolean comparison `le`: elements that compare
equal keep their original relative order. -/
def sortBy {α : Type} (le : α → α → Bool) : List α → List α
  | [] => []
  | a :: as => insertBy le a (sortBy le as)

/-! ### Vector Index and Retriever -/

/-- An entry of the Vector Index: a chunk together with the denormalized
document metadata the spec's data model gives to every chunk (§3). -/
structure IndexEntry where
  chunkId : String
  documentId : String
  title : String
  source : String
  «section» : String
  docType : String
  text : String

/-- Modelled from the spec: the Vector Index nearest-neighbour query (§4.4; the
ChromaDB adapter is not in the snapshot).  The cosine similarity of a stored
entry against the query vector is abstracted as the function `sim`; entries are
listed in insertion order, and the stable descending sort therefore breaks
exact similarity ties by insertion order, earliest first, as the spec fixes. -/
def indexQuery (sim : IndexEntry → ℚ) (entries : List IndexEntry) (k : Nat) :
    List (IndexEntry × ℚ) :=
  ((sortBy (fun a b => decide (sim b ≤ sim a)) entries).take k).map (fun e => (e, sim e))

/-- Modelled from the spec: the candidate multiplier used when reranking is
enabled (§4.5, "default fetches extra candidates, e.g. 3×"). -/
def rerankFactor : Nat := 3

/-- Modelled from the spec: the Retriever (§4.5).  Without reranking it asks
the index for exactly `topK` entries.  With reranking it fetches
`topK × rerankFactor` candidates, rescores them with the finer-grained signal
`rerank`, re-sorts by that signal descending — the stable sort breaks exact
ties by the original similarity rank — and narrows to `topK`.  Each returned
pair carries the chunk and its original similarity score. -/
def retrieve (sim rerank : IndexEntry → ℚ) (entries : List IndexEntry)
    (topK : Nat) (useReranking : Bool) : List (IndexEntry × ℚ) :=
  if useReranking then
    (sortBy (fun a b => decide (rerank b.1 ≤ rerank a.1))
        (indexQuery sim entries (topK * rerankFactor))).take topK
  else
    indexQuery sim entries topK

/-! ### Generator prompt and pipeline orchestrator -/

/-- Modelled from the spec: the grounded prompt the Generator builds (§4.6,
§4.7).  When retrieval yields zero chunks the prompt states explicitly that no
grounding context was found, recorded here as `noContextNotice`. -/
structure Prompt where
  instructions : String
  noContextNotice : Bool
  excerpts : List String
  question : String

/-- Modelled from the spec: prompt assembly for a question and its retrieved
chunks (§4.7, Query flow). -/
def buildPrompt (question : String) (results : List (IndexEntry × ℚ)) : Prompt :=
  { instructions := "Answer the question using only the provided sources."
    noContextNotice := results.isEmpty
    excerpts := results.map (fun p => p.1.text)
    question := question }

/-- Result of one synchronous call to the external LLM endpoint (§4.6):
answer text plus usage and latency metadata. -/
structure GenResult where
  text : String
  model : String
  latency_seconds : ℚ
  tokens_used : Nat

/-- Modelled from the spec: the structured error kinds of §7. -/
inductive PipelineError where
  | inputError (msg : String)
  | dependencyError (msg : String)
  | timeoutError (msg : String)

/-- Human-readable description carried by a pipeline error (§7: all errors
propagate as structured results with an error description). -/
def PipelineError.message : PipelineError → String
  | PipelineError.inputError m => m
  | PipelineError.dependencyError m => m
  | PipelineError.timeoutError m => m

/-- Payload of a successful query flow before boundary formatting. -/
structure QuerySuccess where
  results : List (IndexEntry × ℚ)
  retrievalMethod : String
  gen : GenResult

/-- External calls made while serving one query, recorded so that
"no side effects before validation" is checkable: how many times the Embedding
Generator was invoked and which prompts were sent to the Generator. -/
structure QueryTrace where
  embedderCalls : Nat
  generatorPrompts : List Prompt

/-- Trimming of leading and trailing whitespace, with the semantics of
JavaScript `String.prototype.trim` and Python `str.strip`; defined over the
character list so that it evaluates by kernel reduction. -/
def jsTrim (s : String) : String :=
  ⟨((s.toList.dropWhile Char.isWhitespace).reverse.dropWhile
      Char.isWhitespace).reverse⟩

/-- Modelled from the spec: the query flow of the Pipeline Orchestrator (§4.7,
`received → retrieved → generated`).  An empty (after trimming) question is
rejected with `InputError` before the Embedding Generator or the Generator is
invoked; otherwise the question is embedded (one embedder call), chunks are
retrieved, a grounded prompt is built — even when retrieval yields zero
chunks — and the Generator is called once on it.  The synchronous LLM endpoint
is abstracted as the function `genAnswer`. -/
def queryCore (genAnswer : Prompt → GenResult) (sim rerank : IndexEntry → ℚ)
    (index : List IndexEntry) (question : String) (topK : Nat)
    (useReranking : Bool) : Except PipelineError QuerySuccess × QueryTrace :=
  if jsTrim question = "" then
    (Except.error (PipelineError.inputError "Question cannot be empty"),
      { embedderCalls := 0, generatorPrompts := [] })
  else
    let results := retrieve sim rerank index topK useReranking
    let prompt := buildPrompt question results
    let gen := genAnswer prompt
    (Except.ok
        { results := results
          retrievalMethod := if useReranking then "rerank" else "vector"
          gen := gen },
      { embedderCalls := 1, generatorPrompts := [prompt] })

/-! ### Frontend payload types (frontend/src/types.ts) -/

/-- QueryRequest from frontend/src/types.ts: the question plus the optional
result-count override and reranking flag. -/
structure QueryRequest where
  question : String
  top_k : Option Nat
  use_reranking : Option Bool

/-- Source from frontend/src/types.ts: one cited chunk summary. -/
structure Source where
  id : String
  title : String
  source : String
  «section» : String
  similarity : ℚ
  content_preview : String

/-- Generation metadata nested inside QueryResponse.metadata in
frontend/src/types.ts. -/
structure GenerationMetadata where
  model : String
  latency_seconds : ℚ
  tokens_used : Option Nat

/-- The metadata object of QueryResponse in frontend/src/types.ts. -/
structure QueryMetadata where
  retrieval_method : String
  documents_retrieved : Nat
  generation_metadata : GenerationMetadata

/-- QueryResponse from frontend/src/types.ts; the TypeScript optional fields
become `Option`s. -/
structure QueryResponse where
  status : String
  question : String
  answer : Option String
  sources : Option (List Source)
  metadata : Option QueryMetadata
  error : Option String

/-- Boundary conversion of an index entry with its score into the Source
summary of frontend/src/types.ts. -/
def toSource (p : IndexEntry × ℚ) : Source :=
  { id := p.1.chunkId
    title := p.1.title
    source := p.1.source
    «section» := p.1.«section»
    similarity := p.2
    content_preview := p.1.text.take 200 }

/-- Modelled from the spec: conversion of the internal tagged result into the
QueryResponse envelope at the boundary (§3, §7, §9: explicit success and error
variants internally, converting at the boundary only). -/
def formatResponse (question : String) :
    Except PipelineError QuerySuccess → QueryResponse
  | Except.error e =>
    { status := "error"
      question := question
      answer := none
      sources := none
      metadata := none
      error := some e.message }
  | Except.ok s =>
    { status := "success"
      question := question
      answer := some s.gen.text
      sources := some (s.results.map toSource)
      metadata := some
        { retrieval_method := s.retrievalMethod
          documents_retrieved := s.results.length
          generation_metadata :=
            { model := s.gen.model
              latency_seconds := s.gen.latency_seconds
              tokens_used := some s.gen.tokens_used } }
      error := none }

/-- Modelled from the spec: the end-to-end query flow producing the response
envelope together with the trace of external calls. -/
def pipelineQuery (genAnswer : Prompt → GenResult) (sim rerank : IndexEntry → ℚ)
    (index : List IndexEntry) (question : String) (topK : Nat)
    (useReranking : Bool) : QueryResponse × QueryTrace :=
  (formatResponse question (queryCore genAnswer sim rerank index question topK useReranking).1,
    (queryCore genAnswer sim rerank index question topK useReranking).2)

/-- The either-success-or-error shape the spec gives to the response envelope
(§3): a success carries an answer, cited sources and generation metadata with
token usage; a failure carries an error description in place of answer and
sources. -/
def WellFormedQueryResponse (r : QueryResponse) : Prop :=
  (r.status = "success" ∧ (∃ a, r.answer = some a) ∧
    (∃ srcs, r.sources = some srcs) ∧
    (∃ m, r.metadata = some m ∧ ∃ t, m.generation_metadata.tokens_used = some t) ∧
    r.error = none) ∨
  (r.status = "error" ∧ r.answer = none ∧ r.sources = none ∧
    ∃ e, r.error = some e)

/-! ### Statistics surface (frontend/src/types.ts SystemStats) -/

/-- The vector_store object of SystemStats in frontend/src/types.ts. -/
structure VectorStoreStats where
  total_documents : Nat
  collection_name : String
  persist_directory : String

/-- The retrieval object of SystemStats in frontend/src/types.ts; the
`vector_store_stats` field is typed `any` there and holds the store stats. -/
structure RetrievalStats where
  vector_store_stats : VectorStoreStats
  embedding_model : String
  embedding_dimension : Nat
  retrieval_methods : List String

/-- The generator object of SystemStats in frontend/src/types.ts. -/
structure GeneratorStats where
  model : String
  base_url : String
  api_type : String
  description : String

/-- The pipeline_config object of SystemStats in frontend/src/types.ts. -/
structure PipelineConfigStats where
  chunk_size : Nat
  chunk_overlap : Nat
  top_k_results : Nat
  max_tokens : Nat
  temperature : ℚ

/-- SystemStats from frontend/src/types.ts. -/
structure SystemStats where
  vector_store : VectorStoreStats
  retrieval : RetrievalStats
  generator : GeneratorStats
  pipeline_config : PipelineConfigStats

/-- Modelled from the spec: the backend configuration the statistics surface
reports (§6; `backend/config.py` is not in the snapshot). -/
structure PipelineConfig where
  chunk_size : Nat
  chunk_overlap : Nat
  top_k_results : Nat
  max_tokens : Nat
  temperature : ℚ
  embedding_model : String
  embedding_dimension : Nat
  generation_model : String
  base_url : String
  collection_name : String
  persist_directory : String

/-- Number of distinct documents represented in the index. -/
def documentCount (index : List IndexEntry) : Nat :=
  ((index.map (fun e => e.documentId)).eraseDups).length

/-- Modelled from the spec: the statistics surface (§6), assembled by the
backend from its configuration and the vector index contents and consumed by
the frontend dashboard (frontend/src/components/ResultDisplay.tsx). -/
def systemStats (cfg : PipelineConfig) (index : List IndexEntry) : SystemStats :=
  { vector_store :=
      { total_documents := documentCount index
        collection_name := cfg.collection_name
        persist_directory := cfg.persist_directory }
    retrieval :=
      { vector_store_stats :=
          { total_documents := documentCount index
            collection_name := cfg.collection_name
            persist_directory := cfg.persist_directory }
        embedding_model := cfg.embedding_model
        embedding_dimension := cfg.embedding_dimension
        retrieval_methods := ["vector", "rerank"] }
    generator :=
      { model := cfg.generation_model
        base_url := cfg.base_url
        api_type := "huggingface"
        description := "gpt-oss-20b via Hugging Face Inference API" }
    pipeline_config :=
      { chunk_size := cfg.chunk_size
        chunk_overlap := cfg.chunk_overlap
        top_k_results := cfg.top_k_results
        max_tokens := cfg.max_tokens
        temperature := cfg.temperature } }

/-! ### Frontend components (frontend/src/components, frontend/src/api.ts) -/

/-- The axios client cap on request body size from frontend/src/api.ts
(`maxBodyLength: 100 * 1024 * 1024`). -/
def apiMaxBodyLength : Nat := 100 * 1024 * 1024

/-- The axios client cap on response content size from frontend/src/api.ts
(`maxContentLength: 100 * 1024 * 1024`). -/
def apiMaxContentLength : Nat := 100 * 1024 * 1024

/-- Embedding of handleQuery from
frontend/src/components/QueryInterface.tsx: the guard returns early (no
request) when the trimmed question is empty, and otherwise posts a
QueryRequest whose only field is the trimmed question — `top_k` and
`use_reranking` are never set by the UI. -/
def handleQuery (question : String) : Option QueryRequest :=
  if jsTrim question = "" then none
  else some { question := jsTrim question, top_k := none, use_reranking := none }

/-- A file chosen in the upload input, as far as handleFileSelect inspects
it. -/
structure SelectedFile where
  name : String
  size : Nat

/-- The 100MB client-side limit from
frontend/src/components/QueryInterface.tsx (`MAX_FILE_SIZE`). -/
def MAX_FILE_SIZE : Nat := 100 * 1024 * 1024

/-- The error message handleFileSelect stores for an oversized file; the
source interpolates the size in megabytes. -/
def fileSizeErrorMessage (size : Nat) : String :=
  "File too large. Maximum size is 100MB. Selected file: " ++
    toString (size / (1024 * 1024)) ++ "MB"

/-- The component state handleFileSelect leaves behind: the selected file, the
file-size error, and whether the automatic upload (the ingest request) was
started. -/
structure FileSelectState where
  uploadFile : Option SelectedFile
  fileSizeError : Option String
  uploadStarted : Bool

/-- Embedding of handleFileSelect from
frontend/src/components/QueryInterface.tsx: no file clears the state; a file
over `MAX_FILE_SIZE` sets the error message, clears the selected file and does
not upload; otherwise the file is kept and the upload starts immediately. -/
def handleFileSelect (file : Option SelectedFile) : FileSelectState :=
  match file with
  | none => { uploadFile := none, fileSizeError := none, uploadStarted := false }
  | some f =>
    if f.size > MAX_FILE_SIZE then
      { uploadFile := none
        fileSizeError := some (fileSizeErrorMessage f.size)
        uploadStarted := false }
    else
      { uploadFile := some f, fileSizeError := none, uploadStarted := true }

/-- Char-list prefix test used by the substring check below. -/
def startsWithList : List Char → List Char → Bool
  | _, [] => true
  | [], _ :: _ => false
  | c :: cs, d :: ds => c == d && startsWithList cs ds

/-- Char-list substring containment used to embed JavaScript
`String.prototype.includes`. -/
def containsSubList : List Char → List Char → Bool
  | [], needle => needle.isEmpty
  | c :: cs, needle => startsWithList (c :: cs) needle || containsSubList cs needle

/-- JavaScript `text.includes(sub)` as used by formatAnswer in
frontend/src/components/QueryInterface.tsx. -/
def strIncludes (s sub : String) : Bool := containsSubList s.toList sub.toList

/-- The HTML-detection condition on line 26 of
frontend/src/components/QueryInterface.tsx: the text contains both `<` and `>`
together with at least one of `<p>`, `<strong>`, `<em>`, `<br>`. -/
def hasHtmlMarkup (text : String) : Bool :=
  strIncludes text "<" && strIncludes text ">" &&
    (strIncludes text "<p>" || strIncludes text "<strong>" ||
      strIncludes text "<em>" || strIncludes text "<br>")

/-- What formatAnswer returns: the empty-string early return, a div rendered
through dangerouslySetInnerHTML carrying the unmodified string, or the
plain-text fallback div. -/
inductive AnswerRendering where
  | emptyOutput
  | rawHtml (html : String)
  | plainText (text : String)
deriving DecidableEq

/-- Embedding of formatAnswer from
frontend/src/components/QueryInterface.tsx: falsy (empty) text returns the
empty string; text matching the HTML-detection condition is rendered as raw
HTML via dangerouslySetInnerHTML with no sanitization; everything else goes to
the plain-text fallback. -/
def formatAnswer (text : String) : AnswerRendering :=
  if text = "" then AnswerRendering.emptyOutput
  else if hasHtmlMarkup text then AnswerRendering.rawHtml text
  else AnswerRendering.plainText text

/-- The rendering shows the given string verbatim as text, not as HTML: either
the empty-string early return (an empty text node) or the plain-text fallback
div. -/
def rendersVerbatimText : AnswerRendering → String → Prop
  | AnswerRendering.emptyOutput, t => t = ""
  | AnswerRendering.plainText t, s => t = s
  | AnswerRendering.rawHtml _, _ => False

/-! ### Chunker lemmas -/

theorem slidingWindow_nil {α : Type} (cs step : Nat) :
    slidingWindow cs step ([] : List α) = [] := by
  unfold slidingWindow
  simp

theorem slidingWindow_last {α : Type} (cs step : Nat) (toks : List α)
    (h0 : toks ≠ []) (h1 : step ≠ 0) (h2 : toks.length ≤ step) :
    slidingWindow cs step toks = [toks.take cs] := by
  unfold slidingWindow
  rw [dif_neg (by simp [h0, h1]), dif_pos h2]

theorem slidingWindow_cons {α : Type} (cs step : Nat) (toks : List α)
    (h1 : step ≠ 0) (h2 : step < toks.length) :
    slidingWindow cs step toks =
      toks.take cs :: slidingWindow cs step (toks.drop step) := by
  have h0 : toks ≠ [] := by
    intro he
    rw [he] at h2
    simp at h2
  conv_lhs => unfold slidingWindow
  rw [dif_neg (by simp [h0, h1]), dif_neg (by omega)]

theorem flatten_map_drop_slidingWindow {α : Type} (cs ov : Nat) (h : ov < cs) :
    ∀ (n : Nat) (toks : List α), toks.length ≤ n →
      ((slidingWindow cs (cs - ov) toks).map (List.drop ov)).flatten = toks.drop ov := by
  intro n
  induction n with
  | zero =>
    intro toks hn
    have he : toks = [] := List.length_eq_zero.mp (Nat.le_zero.mp hn)
    rw [he, slidingWindow_nil]
    simp
  | succ n ih =>
    intro toks hn
    rcases eq_or_ne toks ([] : List α) with h0 | h0
    · rw [h0, slidingWindow_nil]
      simp
    · have hstep : cs - ov ≠ 0 := by omega
      by_cases h2 : toks.length ≤ cs - ov
      · rw [slidingWindow_last cs (cs - ov) toks h0 hstep h2]
        have htake : toks.take cs = toks := List.take_of_length_le (by omega)
        simp [htake]
      · push_neg at h2
        rw [slidingWindow_cons cs (cs - ov) toks hstep h2]
        have hlen : (toks.drop (cs - ov)).length ≤ n := by
          rw [List.length_drop]
          omega
        simp only [List.map_cons, List.flatten_cons]
        rw [ih (toks.drop (cs - ov)) hlen, List.drop_drop, List.drop_take]
        have he1 : cs - ov + ov = cs := by omega
        have he2 : List.drop cs toks = List.drop (cs - ov) (List.drop ov toks) := by
          rw [List.drop_drop]
          congr 1
          omega
        rw [he1, he2, List.take_append_drop]

theorem deOverlap_slidingWindow {α : Type} (cs ov : Nat) (h : ov < cs)
    (toks : List α) : deOverlap ov (slidingWindow cs (cs - ov) toks) = toks := by
  rcases eq_or_ne toks ([] : List α) with h0 | h0
  · rw [h0, slidingWindow_nil]
    rfl
  · have hstep : cs - ov ≠ 0 := by omega
    by_cases h2 : toks.length ≤ cs - ov
    · rw [slidingWindow_last cs (cs - ov) toks h0 hstep h2]
      show toks.take cs ++ _ = toks
      simp [List.take_of_length_le (show toks.length ≤ cs by omega)]
    · push_neg at h2
      rw [slidingWindow_cons cs (cs - ov) toks hstep h2]
      show toks.take cs ++
        ((slidingWindow cs (cs - ov) (toks.drop (cs - ov))).map (List.drop ov)).flatten = toks
      rw [flatten_map_drop_slidingWindow cs ov h (toks.drop (cs - ov)).length
        (toks.drop (cs - ov)) le_rfl]
      rw [List.drop_drop]
      have he1 : cs - ov + ov = cs := by omega
      rw [he1, List.take_append_drop]

/-- C1: chunking a 1200-token plain-text document with chunk size 512 and
overlap 50 produces exactly 3 chunks of sizes [512, 512, 276] (the last at
most 512), the window advancing by 512 - 50 = 462 tokens per step, and the
second chunk's first 50 tokens equal the first chunk's last 50 tokens. -/
theorem chunk_1200_tokens {α : Type} (toks : List α) (h : toks.length = 1200) :
    ∃ c0 c1 c2, chunkTokens 512 50 toks = some [c0, c1, c2] ∧
      c0.length = 512 ∧ c1.length = 512 ∧ c2.length = 276 ∧ c2.length ≤ 512 ∧
      c1.take 50 = c0.drop (512 - 50) := by
  refine ⟨toks.take 512, (toks.drop 462).take 512, (toks.drop 924).take 512, ?_, ?_, ?_, ?_, ?_, ?_⟩
  · unfold chunkTokens
    rw [if_neg (by omega)]
    have e1 : slidingWindow 512 (512 - 50) toks =
        toks.take 512 :: slidingWindow 512 462 (toks.drop 462) :=
      slidingWindow_cons 512 462 toks (by omega) (by omega)
    have hlen1 : (toks.drop 462).length = 738 := by
      rw [List.length_drop, h]
    have e2 : slidingWindow 512 462 (toks.drop 462) =
        (toks.drop 462).take 512 :: slidingWindow 512 462 ((toks.drop 462).drop 462) :=
      slidingWindow_cons 512 462 (toks.drop 462) (by omega) (by omega)
    have hdd : (toks.drop 462).drop 462 = toks.drop 924 := by
      rw [List.drop_drop]
    have hlen2 : (toks.drop 924).length = 276 := by
      rw [List.length_drop, h]
    have hne : toks.drop 924 ≠ [] := by
      intro he
      rw [he] at hlen2
      simp at hlen2
    have e3 : slidingWindow 512 462 (toks.drop 924) = [(toks.drop 924).take 512] :=
      slidingWindow_last 512 462 (toks.drop 924) hne (by omega) (by omega)
    rw [e1, e2, hdd, e3]
  · rw [List.length_take, h]
    omega
  · rw [List.length_take, List.length_drop, h]
    omega
  · rw [List.length_take, List.length_drop, h]
    omega
  · rw [List.length_take, List.length_drop, h]
    omega
  · rw [List.take_take, List.drop_take]
    norm_num

/-- Witness for C1 at the concrete token list `List.range 1200`. -/
theorem chunk_1200_tokens_witness :
    (List.range 1200).length = 1200 ∧
    ∃ c0 c1 c2, chunkTokens 512 50 (List.range 1200) = some [c0, c1, c2] ∧
      c0.length = 512 ∧ c1.length = 512 ∧ c2.length = 276 ∧ c2.length ≤ 512 ∧
      c1.take 50 = c0.drop (512 - 50) :=
  ⟨List.length_range 1200, chunk_1200_tokens (List.range 1200) (List.length_range 1200)⟩

/-- C2: for every token sequence and every valid configuration
(overlap < chunk size), concatenating the chunks produced by the Chunker with
the overlapping token spans removed reconstructs the input exactly. -/
theorem chunker_reconstruction {α : Type} (cs ov : Nat) (toks : List α)
    (h : ov < cs) : (chunkTokens cs ov toks).map (deOverlap ov) = some toks := by
  unfold chunkTokens
  rw [if_neg (by omega)]
  rw [Option.map_some']
  rw [deOverlap_slidingWindow cs ov h toks]

/-- Witness for C2 at a concrete text of 7 tokens, chunk size 3, overlap 1. -/
theorem chunker_reconstruction_witness :
    (1 : Nat) < 3 ∧
    (chunkTokens 3 1 [10, 20, 30, 40, 50, 60, 70]).map (deOverlap 1) =
      some [10, 20, 30, 40, 50, 60, 70] :=
  ⟨by omega, chunker_reconstruction 3 1 [10, 20, 30, 40, 50, 60, 70] (by omega)⟩

/-! ### Sorting lemmas and the Retriever guarantee -/

theorem mem_insertBy {α : Type} {le : α → α → Bool} {a x : α} {l : List α}
    (h : x ∈ insertBy le a l) : x = a ∨ x ∈ l := by
  induction l with
  | nil =>
    simp only [insertBy, List.mem_singleton] at h
    exact Or.inl h
  | cons b bs ih =>
    simp only [insertBy] at h
    by_cases hc : le a b
    · rw [if_pos hc] at h
      rcases List.mem_cons.mp h with h1 | h1
      · exact Or.inl h1
      · exact Or.inr h1
    · rw [if_neg hc] at h
      rcases List.mem_cons.mp h with h1 | h1
      · exact Or.inr (by rw [h1]; exact List.mem_cons_self b bs)
      · rcases ih h1 with h2 | h2
        · exact Or.inl h2
        · exact Or.inr (List.mem_cons_of_mem b h2)

theorem pairwise_insertBy {α : Type} {le : α → α → Bool} {R : α → α → Prop}
    (h1 : ∀ a b, le a b = true → R a b) (h2 : ∀ a b, le a b = false → R b a)
    (htrans : ∀ {x y z}, R x y → R y z → R x z) {a : α} {l : List α}
    (hs : l.Pairwise R) : (insertBy le a l).Pairwise R := by
  induction l with
  | nil => simp [insertBy]
  | cons b bs ih =>
    rcases List.pairwise_cons.mp hs with ⟨hb, hbs⟩
    simp only [insertBy]
    by_cases hc : le a b
    · rw [if_pos hc]
      refine List.pairwise_cons.mpr ⟨?_, hs⟩
      intro x hx
      rcases List.mem_cons.mp hx with hx1 | hx1
      · rw [hx1]
        exact h1 a b hc
      · exact htrans (h1 a b hc) (hb x hx1)
    · rw [if_neg hc]
      refine List.pairwise_cons.mpr ⟨?_, ih hbs⟩
      intro x hx
      rcases mem_insertBy hx with hx1 | hx1
      · rw [hx1]
        exact h2 a b (Bool.not_eq_true _ ▸ hc)
      · exact hb x hx1

theorem pairwise_sortBy {α : Type} {le : α → α → Bool} {R : α → α → Prop}
    (h1 : ∀ a b, le a b = true → R a b) (h2 : ∀ a b, le a b = false → R b a)
    (htrans : ∀ {x y z}, R x y → R y z → R x z) (l : List α) :
    (sortBy le l).Pairwise R := by
  induction l with
  | nil => simp [sortBy]
  | cons a as ih =>
    simp only [sortBy]
    exact pairwise_insertBy h1 h2 htrans ih

theorem pairwise_indexQuery (sim : IndexEntry → ℚ) (entries : List IndexEntry)
    (k : Nat) : (indexQuery sim entries k).Pairwise (fun a b => b.2 ≤ a.2) := by
  unfold indexQuery
  rw [List.pairwise_map]
  refine List.Pairwise.sublist (List.take_sublist k _) ?_
  refine pairwise_sortBy ?_ ?_ ?_ entries
  · intro a b hab
    exact of_decide_eq_true hab
  · intro a b hab
    exact le_of_not_le (of_decide_eq_false hab)
  · intro x y z hxy hyz
    exact le_trans hyz hxy

theorem length_indexQuery (sim : IndexEntry → ℚ) (entries : List IndexEntry)
    (k : Nat) : (indexQuery sim entries k).length ≤ k := by
  unfold indexQuery
  rw [List.length_map]
  exact List.length_take_le k _

/-- C3: for every query the Retriever returns at most `topK` results, ordered
best-first — sorted by descending similarity score, or by descending rerank
score when reranking is enabled. -/
theorem retrieve_topk_sorted (sim rerank : IndexEntry → ℚ)
    (entries : List IndexEntry) (topK : Nat) (useReranking : Bool) :
    (retrieve sim rerank entries topK useReranking).length ≤ topK ∧
    (useReranking = false →
      (retrieve sim rerank entries topK useReranking).Pairwise
        (fun a b => b.2 ≤ a.2)) ∧
    (useReranking = true →
      (retrieve sim rerank entries topK useReranking).Pairwise
        (fun a b => rerank b.1 ≤ rerank a.1)) := by
  refine ⟨?_, ?_, ?_⟩
  · unfold retrieve
    cases useReranking with
    | false => exact length_indexQuery sim entries topK
    | true =>
      rw [if_pos rfl]
      exact List.length_take_le topK _
  · intro hr
    rw [hr]
    unfold retrieve
    rw [if_neg (by simp)]
    exact pairwise_indexQuery sim entries topK
  · intro hr
    rw [hr]
    unfold retrieve
    rw [if_pos rfl]
    refine List.Pairwise.sublist (List.take_sublist topK _) ?_
    refine pairwise_sortBy ?_ ?_ ?_ _
    · intro a b hab
      exact of_decide_eq_true hab
    · intro a b hab
      exact le_of_not_le (of_decide_eq_false hab)
    · intro x y z hxy hyz
      exact le_trans hyz hxy

/-- Witness for C3 with a two-entry index, once without and once with
reranking. -/
theorem retrieve_topk_sorted_witness :
    ((retrieve (fun _ => (1 : ℚ)) (fun _ => (2 : ℚ))
        [⟨"c1", "d1", "t", "s", "sec", "law", "x"⟩,
         ⟨"c2", "d1", "t", "s", "sec", "law", "y"⟩] 1 false).Pairwise
      (fun a b => b.2 ≤ a.2)) ∧
    ((retrieve (fun _ => (1 : ℚ)) (fun _ => (2 : ℚ))
        [⟨"c1", "d1", "t", "s", "sec", "law", "x"⟩,
         ⟨"c2", "d1", "t", "s", "sec", "law", "y"⟩] 1 true).Pairwise
      (fun a b => (fun _ => (2 : ℚ)) b.1 ≤ (fun _ => (2 : ℚ)) a.1)) :=
  ⟨(retrieve_topk_sorted (fun _ => 1) (fun _ => 2)
      [⟨"c1", "d1", "t", "s", "sec", "law", "x"⟩,
       ⟨"c2", "d1", "t", "s", "sec", "law", "y"⟩] 1 false).2.1 rfl,
   (retrieve_topk_sorted (fun _ => 1) (fun _ => 2)
      [⟨"c1", "d1", "t", "s", "sec", "law", "x"⟩,
       ⟨"c2", "d1", "t", "s", "sec", "law", "y"⟩] 1 true).2.2 rfl⟩

/-! ### Pipeline orchestrator theorems -/

theorem retrieve_empty_index (sim rerank : IndexEntry → ℚ) (topK : Nat)
    (rr : Bool) : retrieve sim rerank [] topK rr = [] := by
  cases rr <;> simp [retrieve, indexQuery, sortBy]

/-- C4: invoking query with an empty question string yields an InputError
rejected before any side effect: the Embedding Generator is called zero times
and no prompt is sent to the Generator. -/
theorem query_empty_question_rejected (genAnswer : Prompt → GenResult)
    (sim rerank : IndexEntry → ℚ) (index : List IndexEntry) (topK : Nat)
    (rr : Bool) :
    (queryCore genAnswer sim rerank index "" topK rr).1 =
      Except.error (PipelineError.inputError "Question cannot be empty") ∧
    (queryCore genAnswer sim rerank index "" topK rr).2.embedderCalls = 0 ∧
    (queryCore genAnswer sim rerank index "" topK rr).2.generatorPrompts = [] := by
  have ht : jsTrim "" = "" := rfl
  unfold queryCore
  rw [if_pos ht]
  exact ⟨rfl, rfl, rfl⟩

/-- C5: querying when the vector index is empty returns zero retrieved chunks
and a non-error response: the Generator is still invoked exactly once, on a
prompt stating that no grounding context was found. -/
theorem query_empty_index_still_generates (genAnswer : Prompt → GenResult)
    (sim rerank : IndexEntry → ℚ) (question : String) (topK : Nat) (rr : Bool)
    (h : jsTrim question ≠ "") :
    (queryCore genAnswer sim rerank [] question topK rr).1 =
      Except.ok
        { results := []
          retrievalMethod := if rr then "rerank" else "vector"
          gen := genAnswer (buildPrompt question []) } ∧
    (queryCore genAnswer sim rerank [] question topK rr).2.generatorPrompts =
      [buildPrompt question []] ∧
    (buildPrompt question ([] : List (IndexEntry × ℚ))).noContextNotice = true ∧
    (pipelineQuery genAnswer sim rerank [] question topK rr).1.status = "success" ∧
    (pipelineQuery genAnswer sim rerank [] question topK rr).1.sources = some [] := by
  unfold pipelineQuery queryCore
  rw [if_neg h, retrieve_empty_index sim rerank topK rr]
  exact ⟨rfl, rfl, rfl, rfl, rfl⟩

/-- Witness for C5 at a concrete question, generator stub and empty index. -/
theorem query_empty_index_still_generates_witness :
    jsTrim "What is a visa?" ≠ "" ∧
    ((queryCore (fun _ => ⟨"No relevant context found.", "gpt-oss-20b", 2, 42⟩)
        (fun _ => 0) (fun _ => 0) [] "What is a visa?" 5 false).1 =
      Except.ok
        { results := []
          retrievalMethod := "vector"
          gen := ⟨"No relevant context found.", "gpt-oss-20b", 2, 42⟩ } ∧
    (queryCore (fun _ => ⟨"No relevant context found.", "gpt-oss-20b", 2, 42⟩)
        (fun _ => 0) (fun _ => 0) [] "What is a visa?" 5 false).2.generatorPrompts =
      [buildPrompt "What is a visa?" []] ∧
    (buildPrompt "What is a visa?" ([] : List (IndexEntry × ℚ))).noContextNotice = true ∧
    (pipelineQuery (fun _ => ⟨"No relevant context found.", "gpt-oss-20b", 2, 42⟩)
        (fun _ => 0) (fun _ => 0) [] "What is a visa?" 5 false).1.status = "success" ∧
    (pipelineQuery (fun _ => ⟨"No relevant context found.", "gpt-oss-20b", 2, 42⟩)
        (fun _ => 0) (fun _ => 0) [] "What is a visa?" 5 false).1.sources = some []) :=
  ⟨by decide,
   query_empty_index_still_generates
     (fun _ => ⟨"No relevant context found.", "gpt-oss-20b", 2, 42⟩)
     (fun _ => 0) (fun _ => 0) "What is a visa?" 5 false (by decide)⟩

/-- C6: every response the pipeline produces carries a status and the echoed
question, and is either a success with an answer, cited sources and generation
metadata including token usage, or a failure with an error description in
place of answer and sources. -/
theorem pipeline_response_wellformed (genAnswer : Prompt → GenResult)
    (sim rerank : IndexEntry → ℚ) (index : List IndexEntry) (question : String)
    (topK : Nat) (rr : Bool) :
    (pipelineQuery genAnswer sim rerank index question topK rr).1.question =
      question ∧
    WellFormedQueryResponse
      (pipelineQuery genAnswer sim rerank index question topK rr).1 := by
  unfold WellFormedQueryResponse pipelineQuery queryCore
  by_cases h : jsTrim question = ""
  · rw [if_pos h]
    exact ⟨rfl, Or.inr ⟨rfl, rfl, rfl, ⟨_, rfl⟩⟩⟩
  · rw [if_neg h]
    exact ⟨rfl, Or.inl ⟨rfl, ⟨_, rfl⟩, ⟨_, rfl⟩, ⟨_, rfl, _, rfl⟩, rfl⟩⟩

/-- C7: the statistics surface exposes the document count, the embedding
dimensionality, the configured chunk size and overlap, the default top-k and
the maximum generation tokens. -/
theorem systemStats_exposes_config (cfg : PipelineConfig)
    (index : List IndexEntry) :
    (systemStats cfg index).vector_store.total_documents = documentCount index ∧
    (systemStats cfg index).retrieval.embedding_dimension =
      cfg.embedding_dimension ∧
    (systemStats cfg index).pipeline_config.chunk_size = cfg.chunk_size ∧
    (systemStats cfg index).pipeline_config.chunk_overlap = cfg.chunk_overlap ∧
    (systemStats cfg index).pipeline_config.top_k_results = cfg.top_k_results ∧
    (systemStats cfg index).pipeline_config.max_tokens = cfg.max_tokens :=
  ⟨rfl, rfl, rfl, rfl, rfl, rfl⟩

/-! ### Frontend theorems -/

/-- C8: for every non-empty question the frontend sends a QueryRequest
containing only the trimmed question text; `top_k` and `use_reranking` are
never set by the UI, so every query uses the backend defaults. -/
theorem handleQuery_sends_trimmed_question_only (question : String)
    (h : jsTrim question ≠ "") :
    handleQuery question =
      some { question := jsTrim question, top_k := none, use_reranking := none } := by
  unfold handleQuery
  rw [if_neg h]

/-- Witness for C8 at a concrete question with surrounding whitespace. -/
theorem handleQuery_sends_trimmed_question_only_witness :
    jsTrim " partner visa " ≠ "" ∧
    handleQuery " partner visa " =
      some { question := jsTrim " partner visa ", top_k := none,
             use_reranking := none } :=
  ⟨by decide, handleQuery_sends_trimmed_question_only " partner visa " (by decide)⟩

/-- C9: selecting a file larger than 100 megabytes is rejected client-side —
handleFileSelect stores the file-size error message, clears the selected file
and starts no ingest request — and the HTTP client additionally caps request
body size at 100 megabytes. -/
theorem oversized_file_rejected_client_side (f : SelectedFile)
    (h : f.size > MAX_FILE_SIZE) :
    handleFileSelect (some f) =
      { uploadFile := none
        fileSizeError := some (fileSizeErrorMessage f.size)
        uploadStarted := false } ∧
    MAX_FILE_SIZE = 100 * 1024 * 1024 ∧
    apiMaxBodyLength = 100 * 1024 * 1024 := by
  refine ⟨?_, rfl, rfl⟩
  simp only [handleFileSelect]
  rw [if_pos h]

/-- Witness for C9 at a file one byte over the limit. -/
theorem oversized_file_rejected_client_side_witness :
    (⟨"big.pdf", 104857601⟩ : SelectedFile).size > MAX_FILE_SIZE ∧
    (handleFileSelect (some ⟨"big.pdf", 104857601⟩) =
      { uploadFile := none
        fileSizeError := some (fileSizeErrorMessage 104857601)
        uploadStarted := false } ∧
    MAX_FILE_SIZE = 100 * 1024 * 1024 ∧
    apiMaxBodyLength = 100 * 1024 * 1024) :=
  ⟨by norm_num [MAX_FILE_SIZE],
   oversized_file_rejected_client_side ⟨"big.pdf", 104857601⟩
     (by norm_num [MAX_FILE_SIZE])⟩

/-- C10: a string that contains both `<` and `>` together with at least one of
`<p>`, `<strong>`, `<em>`, `<br>` is rendered as raw HTML via
dangerouslySetInnerHTML with the string unmodified (no sanitization); every
other string is rendered verbatim as plain text. -/
theorem formatAnswer_html_or_plain (text : String) :
    (hasHtmlMarkup text = true →
      formatAnswer text = AnswerRendering.rawHtml text) ∧
    (hasHtmlMarkup text = false →
      rendersVerbatimText (formatAnswer text) text) := by
  constructor
  · intro hm
    have hne : text ≠ "" := by
      intro he
      rw [he] at hm
      exact absurd hm (by decide)
    unfold formatAnswer
    rw [if_neg hne, if_pos hm]
  · intro hm
    by_cases he : text = ""
    · unfold formatAnswer
      rw [if_pos he]
      exact he
    · unfold formatAnswer
      rw [if_neg he, if_neg (by rw [hm]; exact Bool.false_ne_true)]
      rfl

/-- Witness for C10 at an HTML-bearing string and a plain string. -/
theorem formatAnswer_html_or_plain_witness :
    formatAnswer "<p>Visa rules</p>" = AnswerRendering.rawHtml "<p>Visa rules</p>" ∧
    rendersVerbatimText (formatAnswer "Visa rules apply.") "Visa rules apply." :=
  ⟨(formatAnswer_html_or_plain "<p>Visa rules</p>").1 (by decide),
   (formatAnswer_html_or_plain "Visa rules apply.").2 (by decide)⟩

end ImmigrationRag
